import Mathlib

/-
Verification of the Monte-Carlo expected-return pipeline of
src/simulation_with_jd.py: the annualizer (annualize_returns, lines
201-237) and the simulation orchestrator
(simulate_asset_class_returns_jsu, lines 241-291).

Modelling conventions.
Numbers are idealized reals extended with an explicit NaN value (NPF),
mirroring numpy float semantics where the code can produce NaN: a
fractional power of a negative base yields NaN, and the mean of an empty
list yields NaN.  numpy rounding (np.round with two decimals) rounds
half to even; rint below is that rounding on reals.  Python exceptions
are modelled with Except: the ValueError raised for an unsupported
frequency, the ZeroDivisionError raised when the exponent
periods_per_year / n_periods divides by zero, and an exception escaping
the scipy fit call.  The scipy collaborators johnsonsu.fit and
johnsonsu.rvs are external library code, not part of this repository;
they are modelled as an abstract structure (ScipyJsu) of deterministic
functions, with the numpy global random state threaded explicitly: the
orchestrator receives the ambient state and np.random.seed(s) replaces
it by a state depending only on s.  The orchestrator also returns the
list of fit and sampling events it performed, in order, so that claims
about what work happens before an exception are statable.
-/

namespace SimulationWithJd

/-- Values of numpy floating computations, idealized: a real number or NaN. -/
inductive NPF where
  | num : ℝ → NPF
  | nan : NPF

/-- Addition on NPF values; NaN propagates, as in numpy. -/
noncomputable def NPF.add : NPF → NPF → NPF
  | NPF.num x, NPF.num y => NPF.num (x + y)
  | _, _ => NPF.nan

/-- Mapping a real function over an NPF value; NaN propagates. -/
noncomputable def NPF.map (f : ℝ → ℝ) : NPF → NPF
  | NPF.num x => NPF.num (f x)
  | NPF.nan => NPF.nan

/-- Rounding of a real to the nearest integer, half to even: the semantics
of numpy rint, which underlies np.round.  Away from exact halves this is
the usual nearest integer. -/
noncomputable def rint (x : ℝ) : ℤ :=
  if (Int.floor x : ℝ) + 1 / 2 = x then
    (if 2 ∣ Int.floor x then Int.floor x else Int.floor x + 1)
  else round x

/-- Rounding an NPF value to two decimal places, the semantics of
np.round(x, 2): scale by 100, round half to even, scale back.  NaN stays
NaN. -/
noncomputable def npRound2 : NPF → NPF
  | NPF.num x => NPF.num ((rint (x * 100) : ℝ) / 100)
  | NPF.nan => NPF.nan

/-- The numpy power x ** e for real x and e as the code uses it (the
exponent periods_per_year / n_periods is always positive at the call
site): a negative base raised to a non-integral exponent is NaN, a
negative base raised to an integral exponent is the integer power, and a
nonnegative base uses the real power. -/
noncomputable def npPow (x e : ℝ) : NPF :=
  if x < 0 then
    (if (Int.floor e : ℝ) = e then NPF.num (x ^ Int.floor e) else NPF.nan)
  else NPF.num (x ^ e)

/-- Sum of a list of NPF values, as numpy sums: NaN propagates. -/
noncomputable def npSum : List NPF → NPF
  | [] => NPF.num 0
  | v :: vs => NPF.add v (npSum vs)

/-- Mean of a list of NPF values, the semantics of np.mean: sum divided
by length, NaN when the list is empty (0/0) or contains NaN. -/
noncomputable def npMean (l : List NPF) : NPF :=
  if l.length = 0 then NPF.nan
  else NPF.map (fun s => s / (l.length : ℝ)) (npSum l)

/-- Python exceptions the embedded code can raise. -/
inductive PyError where
  | valueError : PyError
  | zeroDivisionError : PyError
  | fitError : PyError
deriving DecidableEq

/-- The frequency dispatch at the top of annualize_returns (source lines
220-227): 12 periods per year for M, 252 for D, 4 for Q, and none for any
other string (the code raises ValueError there). -/
def periods_per_year (frequency : String) : Option ℕ :=
  if frequency = "M" then some 12
  else if frequency = "D" then some 252
  else if frequency = "Q" then some 4
  else none

/-- Embedding of annualize_returns (source lines 201-237) on one column
of returns.  The source operates column-wise on a pandas DataFrame; this
models a single column, which is how the orchestrator calls it.  The
frequency is dispatched first (ValueError on an unsupported frequency),
then compounded growth is the product of (1 + r), the exponent is
periods_per_year / n_periods (ZeroDivisionError on an empty column), and
the returned value is np.round((growth ** exponent - 1) * 100, 2): the
source scales to percent with .mul(100) and rounds to two decimals
before returning. -/
noncomputable def annualize_returns (returns : List ℝ) (frequency : String) :
    Except PyError NPF :=
  match periods_per_year frequency with
  | none => Except.error PyError.valueError
  | some ppy =>
    if returns.length = 0 then Except.error PyError.zeroDivisionError
    else
      Except.ok (npRound2 (NPF.map (fun v => v * 100) (NPF.map (fun v => v - 1)
        (npPow ((returns.map (fun r => r + 1)).prod)
          ((ppy : ℝ) / (returns.length : ℝ))))))

/-- The annualization formula as the specification states it in section
4.3, for comparison with the embedded code: the product over all periods
of (1 + period return), raised to periods_per_year over the path length,
minus 1 - unscaled and unrounded. -/
noncomputable def spec_annualize (path : List ℝ) (ppy : ℕ) : ℝ :=
  ((path.map (fun r => r + 1)).prod) ^ ((ppy : ℝ) / (path.length : ℝ)) - 1

/-- State of the numpy global pseudo-random generator, abstracted. -/
abbrev RngState : Type := ℕ

/-- Effect of np.random.seed(s) (source line 258): the global state is
replaced by a state depending only on the integer seed. -/
def np_seed (s : ℤ) : RngState := s.natAbs

/-- Parameters of a fitted Johnson SU distribution, as unpacked at source
line 269: gamma, delta, xi, lambda. -/
structure JsuParams where
  gamma : ℝ
  delta : ℝ
  xi : ℝ
  lambda_ : ℝ

/-- The scipy collaborators used by the orchestrator, modelled
abstractly: johnsonsu.fit is a deterministic function of the sample that
may raise, and johnsonsu.rvs is a deterministic function of the
parameters, the requested size and the global random state, returning
the drawn sample and the advanced state.  rvs_length is the scipy
contract that rvs returns exactly the requested number of draws. -/
structure ScipyJsu where
  fit : List ℝ → Except PyError JsuParams
  rvs : JsuParams → ℕ → RngState → List ℝ × RngState
  rvs_length : ∀ p n s, (rvs p n s).1.length = n

/-- Observable work events of one orchestrator run: a distribution fit
for an asset class, or a sampling call for an asset class with the
requested number of draws. -/
inductive Event where
  | fitEv : String → Event
  | rvsEv : String → ℕ → Event
deriving DecidableEq

/-- The inner simulation loop of the orchestrator (source lines
275-286), for one asset class with already-fitted parameters: repeat the
given number of times, each iteration drawing num_years * 12 variates
(the size is hard-coded as num_years * 12 at source line 277, whatever
the frequency) and annualizing them with the given frequency.  Returns
the list of per-simulation annualized values, the advanced random state
and the sampling events, and propagates the first exception raised. -/
noncomputable def run_simulations (lib : ScipyJsu) (p : JsuParams)
    (asset : String) (num_years : ℕ) (frequency : String) :
    ℕ → RngState → Except PyError (List NPF) × RngState × List Event
  | 0, st => (Except.ok [], st, [])
  | k + 1, st =>
    match lib.rvs p (num_years * 12) st with
    | (path, st1) =>
      match annualize_returns path frequency with
      | Except.error e => (Except.error e, st1, [Event.rvsEv asset (num_years * 12)])
      | Except.ok r =>
        match run_simulations lib p asset num_years frequency k st1 with
        | (Except.error e, st2, evs) =>
          (Except.error e, st2, Event.rvsEv asset (num_years * 12) :: evs)
        | (Except.ok rs, st2, evs) =>
          (Except.ok (r :: rs), st2, Event.rvsEv asset (num_years * 12) :: evs)

/-- The outer loop of the orchestrator (source lines 264-289) over the
asset-class columns in table order: fit once per asset class, run the
simulations, and record np.mean(per-simulation values).round(2) as the
Expected Return entry of that asset class.  The source has no exception
handling, so the first exception raised anywhere propagates and aborts
the whole run. -/
noncomputable def simulate_columns (lib : ScipyJsu)
    (num_simulations num_years : ℕ) (frequency : String) :
    List (String × List ℝ) → RngState →
      Except PyError (List (String × NPF)) × RngState × List Event
  | [], st => (Except.ok [], st, [])
  | (asset, col) :: rest, st =>
    match lib.fit col with
    | Except.error e => (Except.error e, st, [Event.fitEv asset])
    | Except.ok p =>
      match run_simulations lib p asset num_years frequency num_simulations st with
      | (Except.error e, st2, evs) => (Except.error e, st2, Event.fitEv asset :: evs)
      | (Except.ok rates, st2, evs) =>
        match simulate_columns lib num_simulations num_years frequency rest st2 with
        | (Except.error e, st3, evs2) =>
          (Except.error e, st3, Event.fitEv asset :: (evs ++ evs2))
        | (Except.ok tbl, st3, evs2) =>
          (Except.ok ((asset, npRound2 (npMean rates)) :: tbl), st3,
            Event.fitEv asset :: (evs ++ evs2))

/-- Embedding of simulate_asset_class_returns_jsu (source lines
241-291).  The input table is the list of asset-class columns in
DataFrame column order (the invariant of the input table is that columns
hold no missing values, so the dropna at source line 266 is the
identity).  The ambient argument is the numpy global random state on
entry; when random_seed is given, np.random.seed replaces it before any
work.  The result is the Expected Return table (or the propagated
exception), the final random state and the ordered work events. -/
noncomputable def simulate_asset_class_returns_jsu (lib : ScipyJsu)
    (returns : List (String × List ℝ)) (num_simulations num_years : ℕ)
    (frequency : String) (random_seed : Option ℤ) (ambient : RngState) :
    Except PyError (List (String × NPF)) × RngState × List Event :=
  match random_seed with
  | some s => simulate_columns lib num_simulations num_years frequency returns (np_seed s)
  | none => simulate_columns lib num_simulations num_years frequency returns ambient

/-- Sizes requested by the sampling events of a trace, in order. -/
def rvs_sizes : List Event → List ℕ
  | [] => []
  | Event.rvsEv _ k :: evs => k :: rvs_sizes evs
  | Event.fitEv _ :: evs => rvs_sizes evs

/-- A concrete ScipyJsu instance for witnesses: fitting always succeeds
and sampling returns zeros, advancing the state by one. -/
noncomputable def zeroLib : ScipyJsu :=
  { fit := fun _ => Except.ok ⟨0, 1, 0, 1⟩
    rvs := fun _ n s => (List.replicate n 0, s + 1)
    rvs_length := fun _ n _ => List.length_replicate n 0 }

/-- A concrete ScipyJsu instance whose sampling output depends on the
incoming random state, for exhibiting seedless nondeterminism. -/
noncomputable def ambientLib : ScipyJsu :=
  { fit := fun _ => Except.ok ⟨0, 1, 0, 1⟩
    rvs := fun _ n s => (List.replicate n (s : ℝ), s + 1)
    rvs_length := fun _ n _ => List.length_replicate n _ }

/-- A concrete ScipyJsu instance whose fit raises on an empty sample and
succeeds otherwise, for exhibiting failure propagation. -/
noncomputable def failLib : ScipyJsu :=
  { fit := fun sample =>
      match sample with
      | [] => Except.error PyError.fitError
      | _ => Except.ok ⟨0, 1, 0, 1⟩
    rvs := fun _ n s => (List.replicate n 0, s + 1)
    rvs_length := fun _ n _ => List.length_replicate n 0 }

/-- Frequency dispatch evaluated at M. -/
theorem ppy_M : periods_per_year "M" = some 12 := by decide

/-- Frequency dispatch evaluated at D. -/
theorem ppy_D : periods_per_year "D" = some 252 := by decide

/-- Frequency dispatch evaluated at Q. -/
theorem ppy_Q : periods_per_year "Q" = some 4 := by decide

/-- Frequency dispatch evaluated at the unsupported frequency W. -/
theorem ppy_W : periods_per_year "W" = none := by decide

/-- Evaluation rule for rint on the lower half-open interval around an
integer: any real at least k and strictly below k + 1/2 rounds to k. -/
theorem rint_eq_of_lt_half (x : ℝ) (k : ℤ) (h1 : (k : ℝ) ≤ x)
    (h2 : x < (k : ℝ) + 1 / 2) : rint x = k := by
  have hfl : Int.floor x = k := by
    rw [Int.floor_eq_iff]
    constructor
    · exact h1
    · linarith
  have hne : ¬ ((Int.floor x : ℝ) + 1 / 2 = x) := by
    rw [hfl]
    intro hc
    rw [← hc] at h2
    linarith
  rw [rint, if_neg hne, round_eq]
  have : Int.floor (x + 1 / 2) = k := by
    rw [Int.floor_eq_iff]
    constructor
    · linarith
    · have : ((k : ℝ) + 1 / 2) + 1 / 2 = (k : ℝ) + 1 := by ring
      linarith
  exact this

/-- Evaluation rule for rint on the upper half-open interval around an
integer: any real strictly above k + 1/2 and strictly below k + 1 rounds
to k + 1. -/
theorem rint_eq_of_gt_half (x : ℝ) (k : ℤ) (h1 : (k : ℝ) + 1 / 2 < x)
    (h2 : x < (k : ℝ) + 1) : rint x = k + 1 := by
  have hfl : Int.floor x = k := by
    rw [Int.floor_eq_iff]
    constructor
    · linarith
    · exact h2
  have hne : ¬ ((Int.floor x : ℝ) + 1 / 2 = x) := by
    rw [hfl]
    intro hc
    rw [← hc] at h1
    linarith
  rw [rint, if_neg hne, round_eq]
  have : Int.floor (x + 1 / 2) = k + 1 := by
    rw [Int.floor_eq_iff]
    constructor
    · push_cast
      linarith
    · push_cast
      linarith
  exact this

/-- Integers are fixed by rint. -/
theorem rint_intCast (k : ℤ) : rint ((k : ℝ)) = k := by
  apply rint_eq_of_lt_half
  · exact le_refl _
  · linarith

/-- Zero is fixed by rint. -/
theorem rint_zero : rint (0 : ℝ) = 0 := by
  have h := rint_intCast 0
  simpa using h

/-- One is fixed by rint. -/
theorem rint_one : rint (1 : ℝ) = 1 := by
  have h := rint_intCast 1
  simpa using h

/-- Numeric literals are fixed by rint. -/
theorem rint_ofNat (n : ℕ) [n.AtLeastTwo] :
    rint ((OfNat.ofNat n : ℝ)) = OfNat.ofNat n := by
  have h := rint_intCast (OfNat.ofNat n)
  simpa using h

/-- Evaluation of the annualizer on twelve monthly returns of zero. -/
theorem annualize_zero_path :
    annualize_returns (List.replicate 12 (0 : ℝ)) "M" = Except.ok (NPF.num 0) := by
  norm_num [annualize_returns, ppy_M, npPow, NPF.map, npRound2, List.prod_replicate, rint_zero]

/-- Evaluation of the annualizer on twelve zero returns under the daily
frequency: the compounded growth is 1, so the result is 0 even though
the exponent is 252 / 12. -/
theorem annualize_zero_path_D :
    annualize_returns (List.replicate 12 (0 : ℝ)) "D" = Except.ok (NPF.num 0) := by
  norm_num [annualize_returns, ppy_D, npPow, NPF.map, npRound2, List.prod_replicate, rint_zero]

/-- Evaluation of the annualizer on the one-period path of return 1/10:
the compounded annual growth is (11/10)^12 = 3.138428376721, the percent
value before rounding is 213.8428376721, and the returned value is the
rounded 213.84 = 21384/100. -/
theorem annualize_tenth :
    annualize_returns [(1 : ℝ) / 10] "M" = Except.ok (NPF.num (21384 / 100)) := by
  have hpow : ((1 : ℝ) / 10 + 1) ^ (((12 : ℕ) : ℝ) / ((1 : ℕ) : ℝ)) = (11 / 10 : ℝ) ^ (12 : ℕ) := by
    have h12 : (((12 : ℕ) : ℝ) / ((1 : ℕ) : ℝ)) = ((12 : ℕ) : ℝ) := by norm_num
    rw [h12, Real.rpow_natCast]
    norm_num
  have hr : rint ((2138428376721 : ℝ) / 100000000) = 21384 := by
    apply rint_eq_of_lt_half
    · norm_num
    · norm_num
  norm_num [annualize_returns, ppy_M, npPow, NPF.map, npRound2, hpow, hr]

/-- Evaluation of the annualizer on twelve monthly returns of one: the
compounded growth is 2^12 = 4096, annualized value 4095, percent value
409500, unchanged by rounding. -/
theorem annualize_ones :
    annualize_returns (List.replicate 12 (1 : ℝ)) "M" = Except.ok (NPF.num 409500) := by
  have hr : rint ((40950000 : ℝ)) = 40950000 := by
    apply rint_eq_of_lt_half
    · norm_num
    · norm_num
  norm_num [annualize_returns, ppy_M, npPow, NPF.map, npRound2, List.prod_replicate]
  rw [hr]
  norm_num

/-- Sampling sizes distribute over trace concatenation. -/
theorem rvs_sizes_append (l1 l2 : List Event) :
    rvs_sizes (l1 ++ l2) = rvs_sizes l1 ++ rvs_sizes l2 := by
  induction l1 with
  | nil => rfl
  | cons e es ih => cases e <;> simp [rvs_sizes, ih]

/-- Every sampling call of the inner simulation loop requests exactly
num_years * 12 draws. -/
theorem run_simulations_sizes (lib : ScipyJsu) (p : JsuParams) (asset : String)
    (ny : ℕ) (f : String) :
    ∀ (k : ℕ) (st : RngState),
      ∀ m ∈ rvs_sizes (run_simulations lib p asset ny f k st).2.2, m = ny * 12 := by
  intro k
  induction k with
  | zero =>
    intro st m hm
    simp [run_simulations, rvs_sizes] at hm
  | succ k ih =>
    intro st m hm
    rw [run_simulations] at hm
    split at hm
    rename_i path st1 heq
    split at hm
    · simp [rvs_sizes] at hm
      omega
    · split at hm
      · rename_i e st2 evs hrec
        simp [rvs_sizes] at hm
        rcases hm with hm | hm
        · omega
        · have h2 := ih st1 m
          rw [hrec] at h2
          exact h2 hm
      · rename_i rs st2 evs hrec
        simp [rvs_sizes] at hm
        rcases hm with hm | hm
        · omega
        · have h2 := ih st1 m
          rw [hrec] at h2
          exact h2 hm

/-- Every sampling call performed by the outer loop of the orchestrator
requests exactly num_years * 12 draws, whatever the frequency. -/
theorem simulate_columns_sizes (lib : ScipyJsu) (ns ny : ℕ) (f : String) :
    ∀ (tbl : List (String × List ℝ)) (st : RngState),
      ∀ m ∈ rvs_sizes (simulate_columns lib ns ny f tbl st).2.2, m = ny * 12 := by
  intro tbl
  induction tbl with
  | nil =>
    intro st m hm
    simp [simulate_columns, rvs_sizes] at hm
  | cons ac rest ih =>
    intro st m hm
    obtain ⟨asset, col⟩ := ac
    rw [simulate_columns] at hm
    split at hm
    · simp [rvs_sizes] at hm
    · rename_i p hfit
      split at hm
      · rename_i e st2 evs hrun
        simp [rvs_sizes] at hm
        have h2 := run_simulations_sizes lib p asset ny f ns st m
        rw [hrun] at h2
        exact h2 hm
      · rename_i rates st2 evs hrun
        split at hm
        · rename_i e st3 evs2 hrest
          simp [rvs_sizes, rvs_sizes_append] at hm
          rcases hm with hm | hm
          · have h2 := run_simulations_sizes lib p asset ny f ns st m
            rw [hrun] at h2
            exact h2 hm
          · have h2 := ih st2 m
            rw [hrest] at h2
            exact h2 hm
        · rename_i t2 st3 evs2 hrest
          simp [rvs_sizes, rvs_sizes_append] at hm
          rcases hm with hm | hm
          · have h2 := run_simulations_sizes lib p asset ny f ns st m
            rw [hrun] at h2
            exact h2 hm
          · have h2 := ih st2 m
            rw [hrest] at h2
            exact h2 hm

/-- When the outer loop returns a table, its keys are exactly the input
column identifiers, in order. -/
theorem simulate_columns_keys (lib : ScipyJsu) (ns ny : ℕ) (f : String) :
    ∀ (tbl : List (String × List ℝ)) (st : RngState) (t : List (String × NPF)),
      (simulate_columns lib ns ny f tbl st).1 = Except.ok t →
        t.map Prod.fst = tbl.map Prod.fst := by
  intro tbl
  induction tbl with
  | nil =>
    intro st t ht
    simp [simulate_columns] at ht
    simp [← ht]
  | cons ac rest ih =>
    intro st t ht
    obtain ⟨asset, col⟩ := ac
    rw [simulate_columns] at ht
    split at ht
    · simp at ht
    · rename_i p hfit
      split at ht
      · simp at ht
      · rename_i rates st2 evs hrun
        split at ht
        · simp at ht
        · rename_i t2 st3 evs2 hrest
          simp at ht
          have h2 := ih st2 t2
          rw [hrest] at h2
          simp [← ht, h2]

/-- With zero simulations, the outer loop performs one fit per asset
class, raises nothing, leaves the random state untouched, and records
NaN (the mean of the empty list of rates) for every asset class. -/
theorem simulate_columns_zero_sims (lib : ScipyJsu) (ny : ℕ) (f : String) :
    ∀ (tbl : List (String × List ℝ)) (st : RngState),
      (∀ ac ∈ tbl, ∃ p, lib.fit ac.2 = Except.ok p) →
        simulate_columns lib 0 ny f tbl st
          = (Except.ok (tbl.map (fun ac => (ac.1, NPF.nan))), st,
             tbl.map (fun ac => Event.fitEv ac.1)) := by
  intro tbl
  induction tbl with
  | nil =>
    intro st _
    simp [simulate_columns]
  | cons ac rest ih =>
    intro st hfit
    obtain ⟨asset, col⟩ := ac
    obtain ⟨p, hp⟩ := hfit ⟨asset, col⟩ (by simp)
    have hrest := ih st (fun a ha => hfit a (by simp [ha]))
    rw [simulate_columns]
    simp only [hp]
    simp [run_simulations, hrest, npMean, npRound2]

/-- A successful numeric output of the two-decimal rounding is an
integer multiple of 1/100. -/
theorem npRound2_ok_inv (w : NPF) (x : ℝ) (h : npRound2 w = NPF.num x) :
    ∃ k : ℤ, x = (k : ℝ) / 100 := by
  cases w with
  | num y =>
    simp [npRound2] at h
    exact ⟨rint (y * 100), h.symm⟩
  | nan => simp [npRound2] at h

/-- C1: for every input table, simulation count, horizon, frequency and
integer seed, two orchestrator calls with identical inputs and the same
random_seed produce bit-identical results regardless of the ambient
random state on entry, because np.random.seed replaces the global state
before any work; with random_seed absent the ambient state flows in, and
two runs from different ambient states can produce different output
tables, as a concrete instance exhibits. -/
theorem C1_seed_determinism :
    (∀ (lib : ScipyJsu) (tbl : List (String × List ℝ)) (ns ny : ℕ) (f : String)
        (s : ℤ) (a1 a2 : RngState),
        simulate_asset_class_returns_jsu lib tbl ns ny f (some s) a1
          = simulate_asset_class_returns_jsu lib tbl ns ny f (some s) a2) ∧
    (∃ (lib : ScipyJsu) (tbl : List (String × List ℝ)) (ns ny : ℕ) (f : String)
        (a1 a2 : RngState),
        (simulate_asset_class_returns_jsu lib tbl ns ny f none a1).1
          ≠ (simulate_asset_class_returns_jsu lib tbl ns ny f none a2).1) := by
  constructor
  · intro lib tbl ns ny f s a1 a2
    rfl
  · refine ⟨ambientLib, [("A", [0])], 1, 1, "M", 0, 1, ?_⟩
    have h0 : (simulate_asset_class_returns_jsu ambientLib [("A", [0])] 1 1 "M" none 0).1
        = Except.ok [("A", NPF.num 0)] := by
      norm_num [simulate_asset_class_returns_jsu, simulate_columns, run_simulations,
        ambientLib, annualize_zero_path, npMean, npSum, NPF.add, NPF.map, npRound2, rint_zero]
    have h1 : (simulate_asset_class_returns_jsu ambientLib [("A", [0])] 1 1 "M" none 1).1
        = Except.ok [("A", NPF.num 409500)] := by
      have hr : rint ((40950000 : ℝ)) = 40950000 := by
        apply rint_eq_of_lt_half <;> norm_num
      norm_num [simulate_asset_class_returns_jsu, simulate_columns, run_simulations,
        ambientLib, annualize_ones, npMean, npSum, NPF.add, NPF.map, npRound2]
      rw [hr]
      norm_num
    rw [h0, h1]
    intro hc
    simp only [Except.ok.injEq, List.cons.injEq, Prod.mk.injEq, NPF.num.injEq] at hc
    norm_num at hc

/-- C2 counterexample: with frequency D and num_years = 1, the single
sampling call of a run requests 12 draws (the trace records size 12),
although num_years times the 252 periods per year implied by D is 252:
the claimed path length num_years times periods-per-year fails for the
supported frequency D. -/
theorem C2_counterexample :
    (simulate_asset_class_returns_jsu zeroLib [("A", [0])] 1 1 "D" (some 42) 0).2.2
        = [Event.fitEv "A", Event.rvsEv "A" 12] ∧
    periods_per_year "D" = some 252 ∧ (12 : ℕ) ≠ 1 * 252 := by
  refine ⟨?_, ppy_D, by norm_num⟩
  norm_num [simulate_asset_class_returns_jsu, simulate_columns, run_simulations,
    zeroLib, annualize_zero_path_D, npMean, npSum, NPF.add, NPF.map, npRound2, rint_zero, np_seed]

/-- C2 amended: every sampling call of every orchestrator run requests
exactly num_years * 12 draws, whatever the frequency argument is; the
length matches num_years times periods-per-year only for the monthly
frequency. -/
theorem C2_amended_path_length (lib : ScipyJsu) (tbl : List (String × List ℝ))
    (ns ny : ℕ) (f : String) (sd : Option ℤ) (amb : RngState) :
    ∀ m ∈ rvs_sizes (simulate_asset_class_returns_jsu lib tbl ns ny f sd amb).2.2,
      m = ny * 12 := by
  intro m hm
  cases sd with
  | some s => exact simulate_columns_sizes lib ns ny f tbl (np_seed s) m hm
  | none => exact simulate_columns_sizes lib ns ny f tbl amb m hm

/-- C2 amended, witness: the sampling call of the concrete daily-frequency
run indeed requested 1 * 12 draws. -/
theorem C2_amended_path_length_witness : (12 : ℕ) = 1 * 12 := by
  apply C2_amended_path_length zeroLib [("A", [0])] 1 1 "D" (some 42) 0 12
  have ht : (simulate_asset_class_returns_jsu zeroLib [("A", [0])] 1 1 "D" (some 42) 0).2.2
      = [Event.fitEv "A", Event.rvsEv "A" 12] := by
    norm_num [simulate_asset_class_returns_jsu, simulate_columns, run_simulations,
      zeroLib, annualize_zero_path_D, npMean, npSum, NPF.add, NPF.map, npRound2, rint_zero, np_seed]
  rw [ht]
  simp [rvs_sizes]

/-- C3 counterexample: with the unsupported frequency W, one asset class
and one simulation, the run does raise ValueError, but its trace shows
that one distribution fit and one sampling call were performed first:
the error is not raised before fitting and sampling work. -/
theorem C3_counterexample :
    (simulate_asset_class_returns_jsu zeroLib [("A", [0])] 1 1 "W" (some 42) 0).1
        = Except.error PyError.valueError ∧
    (simulate_asset_class_returns_jsu zeroLib [("A", [0])] 1 1 "W" (some 42) 0).2.2
        = [Event.fitEv "A", Event.rvsEv "A" 12] := by
  constructor <;>
    norm_num [simulate_asset_class_returns_jsu, simulate_columns, run_simulations,
      zeroLib, annualize_returns, ppy_W, np_seed]

/-- C3 amended: for an unsupported frequency, at least one asset class
and at least one simulation, the orchestrator raises ValueError only
from inside the first annualization call: the trace of the aborted run
is exactly one fit event followed by one sampling event for the first
asset class. -/
theorem C3_amended_error_after_work (lib : ScipyJsu) (asset : String) (col : List ℝ)
    (rest : List (String × List ℝ)) (k ny : ℕ) (f : String) (sd : Option ℤ)
    (amb : RngState) (p : JsuParams)
    (hppy : periods_per_year f = none) (hfit : lib.fit col = Except.ok p) :
    (simulate_asset_class_returns_jsu lib ((asset, col) :: rest) (k + 1) ny f sd amb).1
        = Except.error PyError.valueError ∧
    (simulate_asset_class_returns_jsu lib ((asset, col) :: rest) (k + 1) ny f sd amb).2.2
        = [Event.fitEv asset, Event.rvsEv asset (ny * 12)] := by
  have hann : ∀ path, annualize_returns path f = Except.error PyError.valueError := by
    intro path
    simp only [annualize_returns, hppy]
  cases sd <;>
    constructor <;>
      simp [simulate_asset_class_returns_jsu, simulate_columns, run_simulations, hfit, hann]

/-- C3 amended, witness: the concrete unsupported-frequency run raises
ValueError with exactly one fit and one sampling event in its trace. -/
theorem C3_amended_error_after_work_witness :
    (simulate_asset_class_returns_jsu zeroLib [("A", [0])] 1 1 "W" (some 42) 0).1
        = Except.error PyError.valueError ∧
    (simulate_asset_class_returns_jsu zeroLib [("A", [0])] 1 1 "W" (some 42) 0).2.2
        = [Event.fitEv "A", Event.rvsEv "A" 12] :=
  C3_amended_error_after_work zeroLib "A" [0] [] 0 1 "W" (some 42) 0 ⟨0, 1, 0, 1⟩ ppy_W rfl

/-- C4 counterexample: in a two-asset-class table where fitting fails
for the first asset class, the whole run aborts with that exception: no
table is returned, the second asset class is never fitted (the trace
holds only the failed fit event), so no partial output with a failure
marker exists. -/
theorem C4_counterexample :
    simulate_asset_class_returns_jsu failLib [("A", []), ("B", [0])] 1 1 "M" (some 42) 0
      = (Except.error PyError.fitError, np_seed 42, [Event.fitEv "A"]) := by
  simp [simulate_asset_class_returns_jsu, simulate_columns, failLib]

/-- C4 amended: the source has no exception handling, so a fit failure
for the first asset class aborts the entire run: the orchestrator
propagates the exception, produces no output table at all, and performs
no work on the remaining asset classes. -/
theorem C4_amended_failure_aborts (lib : ScipyJsu) (asset : String) (col : List ℝ)
    (rest : List (String × List ℝ)) (ns ny : ℕ) (f : String) (sd : Option ℤ)
    (amb : RngState) (e : PyError)
    (hfit : lib.fit col = Except.error e) :
    (simulate_asset_class_returns_jsu lib ((asset, col) :: rest) ns ny f sd amb).1
        = Except.error e ∧
    (simulate_asset_class_returns_jsu lib ((asset, col) :: rest) ns ny f sd amb).2.2
        = [Event.fitEv asset] := by
  cases sd <;>
    constructor <;> simp [simulate_asset_class_returns_jsu, simulate_columns, hfit]

/-- C4 amended, witness: the concrete failing-fit run aborts with the
fit exception and a trace holding only the failed fit event. -/
theorem C4_amended_failure_aborts_witness :
    (simulate_asset_class_returns_jsu failLib [("A", []), ("B", [0])] 1 1 "M" (some 42) 0).1
        = Except.error PyError.fitError ∧
    (simulate_asset_class_returns_jsu failLib [("A", []), ("B", [0])] 1 1 "M" (some 42) 0).2.2
        = [Event.fitEv "A"] :=
  C4_amended_failure_aborts failLib "A" [] [("B", [0])] 1 1 "M" (some 42) 0
    PyError.fitError rfl

/-- C5 counterexample: the path with both period returns equal to -2,
each below -1, makes the annualizer return the real number 0 (the
compounding factors are -1 and their product is 1): no error of any kind
is raised, contradicting the claim that such a path raises
InvalidPathError and never returns a real number. -/
theorem C5_counterexample :
    ((-2 : ℝ) ≤ -1) ∧ annualize_returns [(-2 : ℝ), -2] "M" = Except.ok (NPF.num 0) := by
  refine ⟨by norm_num, ?_⟩
  norm_num [annualize_returns, ppy_M, npPow, NPF.map, npRound2, rint_zero]

/-- C5 amended: the annualizer performs no validation of the path
values: for every nonempty path, whatever its entries, and every
supported frequency it returns a value (possibly NaN) and raises
nothing; there is no InvalidPathError in the code. -/
theorem C5_amended_never_raises (path : List ℝ) (f : String) (ppy : ℕ)
    (hne : path ≠ []) (hppy : periods_per_year f = some ppy) :
    ∃ v, annualize_returns path f = Except.ok v := by
  simp only [annualize_returns, hppy]
  rw [if_neg (by simpa using hne)]
  exact ⟨_, rfl⟩

/-- C5 amended, witness: the annualizer returns a value on the concrete
path containing returns below -1. -/
theorem C5_amended_never_raises_witness :
    ∃ v, annualize_returns [(-2 : ℝ), -2] "M" = Except.ok v :=
  C5_amended_never_raises [(-2 : ℝ), -2] "M" 12 (by simp) ppy_M

/-- C6 counterexample: on the one-period path of return 1/10 the
annualizer returns 213.84, while the formula of the claim (compounded
growth to the power periods-per-year over path length, minus one) has
value (11/10)^12 - 1 = 2.138428376721: the code returns the
percent-scaled, two-decimal-rounded variant, not the formula value. -/
theorem C6_counterexample :
    annualize_returns [(1 : ℝ) / 10] "M" = Except.ok (NPF.num (21384 / 100)) ∧
    (21384 / 100 : ℝ) ≠ spec_annualize [(1 : ℝ) / 10] 12 := by
  refine ⟨annualize_tenth, ?_⟩
  have h1 : spec_annualize [(1 : ℝ) / 10] 12 = (11 / 10 : ℝ) ^ (12 : ℕ) - 1 := by
    rw [spec_annualize]
    have h12 : (((12 : ℕ) : ℝ) / ((List.length [(1 : ℝ) / 10]) : ℝ)) = ((12 : ℕ) : ℝ) := by
      norm_num
    rw [h12, Real.rpow_natCast]
    norm_num
  rw [h1]
  norm_num

/-- C6 amended: for every nonempty path with nonnegative compounded
growth and every supported frequency, the annualizer returns the
specification formula value scaled to percent (times 100) and rounded
half-to-even at two decimals - not the raw formula value. -/
theorem C6_amended_formula (path : List ℝ) (f : String) (ppy : ℕ)
    (hne : path ≠ []) (hppy : periods_per_year f = some ppy)
    (hpos : 0 ≤ (path.map (fun r => r + 1)).prod) :
    annualize_returns path f
      = Except.ok (NPF.num (((rint ((spec_annualize path ppy * 100) * 100)) : ℝ) / 100)) := by
  simp only [annualize_returns, hppy]
  rw [if_neg (by simpa using hne)]
  rw [npPow, if_neg (not_lt.mpr hpos)]
  simp only [NPF.map, npRound2, spec_annualize]

/-- C6 amended, witness: the rounded-percent relation between the code
and the specification formula holds on the concrete path of return
1/10. -/
theorem C6_amended_formula_witness :
    annualize_returns [(1 : ℝ) / 10] "M"
      = Except.ok (NPF.num (((rint ((spec_annualize [(1 : ℝ) / 10] 12 * 100) * 100)) : ℝ) / 100)) :=
  C6_amended_formula [(1 : ℝ) / 10] "M" 12 (by simp) ppy_M (by norm_num)

/-- C7 counterexample: the annualizer does not return an unrounded real:
on the one-period path of return 1/10 it returns 213.84, which differs
from the unrounded percent value ((11/10)^12 - 1) * 100 =
213.8428376721. -/
theorem C7_counterexample :
    annualize_returns [(1 : ℝ) / 10] "M" = Except.ok (NPF.num (21384 / 100)) ∧
    (21384 / 100 : ℝ) ≠ ((11 / 10 : ℝ) ^ (12 : ℕ) - 1) * 100 :=
  ⟨annualize_tenth, by norm_num⟩

/-- C7 amended: rounding to two decimals happens already inside the
annualizer, per path, before the mean is taken: every numeric value the
annualizer returns is an integer multiple of 1/100 (and the orchestrator
then rounds the mean of these pre-rounded values once more). -/
theorem C7_amended_prerounded (path : List ℝ) (f : String) (x : ℝ)
    (h : annualize_returns path f = Except.ok (NPF.num x)) :
    ∃ k : ℤ, x = (k : ℝ) / 100 := by
  simp only [annualize_returns] at h
  split at h
  · simp at h
  · split at h
    · simp at h
    · rw [Except.ok.injEq] at h
      exact npRound2_ok_inv _ x h

/-- C7 amended, witness: the concrete annualizer output 213.84 is an
integer multiple of 1/100. -/
theorem C7_amended_prerounded_witness :
    ∃ k : ℤ, (21384 / 100 : ℝ) = (k : ℝ) / 100 :=
  C7_amended_prerounded [(1 : ℝ) / 10] "M" (21384 / 100) annualize_tenth

/-- C8: for every nonempty all-zero path and every supported frequency,
the annualizer returns exactly 0: the compounded growth is 1, its power
is 1, and scaling and rounding leave 0 unchanged. -/
theorem C8_all_zero_path (n : ℕ) (f : String) (ppy : ℕ)
    (hn : n ≠ 0) (hppy : periods_per_year f = some ppy) :
    annualize_returns (List.replicate n (0 : ℝ)) f = Except.ok (NPF.num 0) := by
  simp only [annualize_returns, hppy]
  rw [if_neg (by simpa using hn)]
  norm_num [List.prod_replicate, npPow, NPF.map, npRound2, rint_zero]

/-- C8 witness: the all-zero path of length three annualizes to exactly
0 under the monthly frequency. -/
theorem C8_all_zero_path_witness :
    annualize_returns (List.replicate 3 (0 : ℝ)) "M" = Except.ok (NPF.num 0) :=
  C8_all_zero_path 3 "M" 12 (by norm_num) ppy_M

/-- C9: whenever an orchestrator run returns a table, that table has
exactly one entry per input asset-class column, keyed by the same
identifiers in the same order as the input columns. -/
theorem C9_output_keys (lib : ScipyJsu) (tbl : List (String × List ℝ)) (ns ny : ℕ)
    (f : String) (sd : Option ℤ) (amb : RngState) (t : List (String × NPF))
    (h : (simulate_asset_class_returns_jsu lib tbl ns ny f sd amb).1 = Except.ok t) :
    t.map Prod.fst = tbl.map Prod.fst := by
  cases sd with
  | some s => exact simulate_columns_keys lib ns ny f tbl (np_seed s) t h
  | none => exact simulate_columns_keys lib ns ny f tbl amb t h

/-- C9 witness: a concrete two-asset-class run returns a table keyed by
the two input identifiers in input order. -/
theorem C9_output_keys_witness :
    List.map Prod.fst [("A", NPF.num 0), ("B", NPF.num 0)]
      = List.map Prod.fst [("A", ([0] : List ℝ)), ("B", ([0] : List ℝ))] := by
  apply C9_output_keys zeroLib [("A", [0]), ("B", [0])] 1 1 "M" (some 7) 0
  norm_num [simulate_asset_class_returns_jsu, simulate_columns, run_simulations,
    zeroLib, annualize_zero_path, npMean, npSum, NPF.add, NPF.map, npRound2, rint_zero, np_seed]

/-- C10: when the orchestrator is called with num_simulations = 0 and
fitting succeeds on every column, it raises nothing and returns a table
whose Expected Return entry for every asset class is NaN, the np.mean of
an empty list of per-path rates; this holds even for an unsupported
frequency, since the annualizer is never invoked. -/
theorem C10_zero_sims_nan_table (lib : ScipyJsu) (tbl : List (String × List ℝ))
    (ny : ℕ) (f : String) (sd : Option ℤ) (amb : RngState)
    (hfit : ∀ ac ∈ tbl, ∃ p, lib.fit ac.2 = Except.ok p) :
    (simulate_asset_class_returns_jsu lib tbl 0 ny f sd amb).1
      = Except.ok (tbl.map (fun ac => (ac.1, NPF.nan))) := by
  cases sd with
  | some s =>
    have h := simulate_columns_zero_sims lib ny f tbl (np_seed s) hfit
    simp [simulate_asset_class_returns_jsu, h]
  | none =>
    have h := simulate_columns_zero_sims lib ny f tbl amb hfit
    simp [simulate_asset_class_returns_jsu, h]

/-- C10 witness: a concrete zero-simulation run with the unsupported
frequency W returns the NaN table without raising. -/
theorem C10_zero_sims_nan_table_witness :
    (simulate_asset_class_returns_jsu zeroLib [("A", [0])] 0 1 "W" none 5).1
      = Except.ok [("A", NPF.nan)] := by
  have h := C10_zero_sims_nan_table zeroLib [("A", [0])] 1 "W" none 5
    (fun ac _ => ⟨⟨0, 1, 0, 1⟩, rfl⟩)
  simpa using h

end SimulationWithJd
